import Mathlib

/-!
# Verification of the budget-aware reasoning demo's resolution pipeline

Shallow embedding of `src/app.py` and `src/case_studies.py`.

Python strings are modelled as `List Char`; Python's `str` helpers
(`split`, `strip`, `startswith`, `replace`, `in`) are embedded below with
their Python semantics.  External effects (the Hugging Face inference API,
the local model, the `tiktoken` tokenizer) are passed to the embedded
functions as explicit parameters: a provider is a function from
(prompt, max_tokens) to either generated text or a classified error, and
the primary tokenizer is an optional encoding function.  A Python
exception that would propagate out of a function is modelled as
`Except.error`.
-/

namespace BudgetSim

/-- Coerce a Lean string literal to the `List Char` model of Python strings. -/
def S (s : String) : List Char := s.data

instance {ε α : Type} [DecidableEq ε] [DecidableEq α] : DecidableEq (Except ε α) := fun x y =>
  match x, y with
  | .ok a, .ok b =>
    if h : a = b then isTrue (by rw [h]) else isFalse (fun he => by cases he; exact h rfl)
  | .error a, .error b =>
    if h : a = b then isTrue (by rw [h]) else isFalse (fun he => by cases he; exact h rfl)
  | .ok _, .error _ => isFalse (fun he => by cases he)
  | .error _, .ok _ => isFalse (fun he => by cases he)

/-- Python's notion of whitespace for `str.split()` / `str.strip()`
(space, tab, newline, carriage return, vertical tab, form feed). -/
def isPySpace (c : Char) : Bool :=
  c = ' ' || c = '\t' || c = '\n' || c = '\r' || c = '\x0b' || c = '\x0c'

/-- Python `str.strip()`: drop whitespace from both ends. -/
def pyStrip (s : List Char) : List Char :=
  ((s.dropWhile isPySpace).reverse.dropWhile isPySpace).reverse

/-- Worker for `splitWs`: `acc` holds the (reversed) characters of the word
currently being read. -/
def splitWsAux : List Char → List Char → List (List Char)
  | [], acc => if acc.isEmpty then [] else [acc.reverse]
  | c :: cs, acc =>
    if isPySpace c then
      if acc.isEmpty then splitWsAux cs [] else acc.reverse :: splitWsAux cs []
    else splitWsAux cs (c :: acc)

/-- Python `str.split()` (no argument): split on runs of whitespace,
discarding empty pieces. -/
def splitWs (s : List Char) : List (List Char) :=
  splitWsAux s []

/-- Python `str.split('\n')`: split on every newline, keeping empty pieces. -/
def splitNl (s : List Char) : List (List Char) :=
  match s with
  | [] => [[]]
  | c :: cs =>
    if c = '\n' then [] :: splitNl cs
    else
      match splitNl cs with
      | [] => [[c]]
      | l :: ls => (c :: l) :: ls

/-- Worker for `pyReplace`.  `skip` counts characters still to be consumed
from the tail of an occurrence of the pattern that was already replaced:
when a non-empty `pat` matches at the head, the head character plus the
next `pat.length - 1` characters belong to that occurrence. -/
def pyReplaceAux (pat repl : List Char) : List Char → ℕ → List Char
  | [], _ => []
  | _ :: cs, skip + 1 => pyReplaceAux pat repl cs skip
  | c :: cs, 0 =>
    if pat.isPrefixOf (c :: cs) then
      repl ++ pyReplaceAux pat repl cs (pat.length - 1)
    else
      c :: pyReplaceAux pat repl cs 0

/-- Python `str.replace(pat, repl)`: replace every (left-to-right,
non-overlapping) occurrence of `pat`.  For the empty pattern Python
interleaves `repl` everywhere; the program only uses non-empty patterns and
we return `s` unchanged in that case to stay total. -/
def pyReplace (s pat repl : List Char) : List Char :=
  if pat.isEmpty then s else pyReplaceAux pat repl s 0

/-- Python's substring test `pat in s`. -/
def pyContains (s pat : List Char) : Bool :=
  match s with
  | [] => pat.isEmpty
  | _ :: cs => pat.isPrefixOf s || pyContains cs pat

/-! ## Data model (`src/case_studies.py`)

A budget entry of a case (`{"response": ..., "tokens": ..., "answer": ...}`). -/

structure Example where
  response : List Char
  tokens : ℕ
  answer : List Char
deriving DecidableEq

/-- One entry of `CASE_STUDIES`.  A Python dict keyed by insertion order is
modelled as an association list, so `list(d.keys())` is `budgets.map Prod.fst`. -/
structure Case where
  description : List Char
  prompt : List Char
  budgets : List (ℕ × Example)
deriving DecidableEq

/-- The `CASE_STUDIES` table: a Python dict from case name to case data,
modelled as an association list in insertion order. -/
abbrev Catalog := List (List Char × Case)

/-- Python `d.get(k)` / `d[k]` on the catalog dict (keys are unique in a
Python dict, so first-match lookup agrees with dict access). -/
def dictGet (d : Catalog) (k : List Char) : Option Case :=
  (d.find? (fun p => p.1 == k)).map (·.2)

/-- Python `d[k]` on a budgets dict. -/
def budgetGet (d : List (ℕ × Example)) (k : ℕ) : Option Example :=
  (d.find? (fun p => p.1 == k)).map (·.2)

/-- `CASE_STUDIES` from `src/case_studies.py`, verbatim. -/
def CASE_STUDIES : Catalog := [
  (S "Math Word Problem",
   { description := S "Solve a grade-school math word problem that requires a step-by-step reasoning process.",
     prompt := S "Weng earns $12 an hour for babysitting. Yesterday, she just did 50 minutes of babysitting. How much did she earn?",
     budgets := [
       (50, { response := S "Weng earns $12/hour, which is $12/60 minutes = $0.2/minute.\nFor 50 minutes, she earned 50 * $0.2 = $10.",
              tokens := 48,
              answer := S "$10" }),
       (110, { response := S "Weng's hourly rate is $12. To find the per-minute rate, we divide the hourly rate by 60 minutes: $12 / 60 = $0.20 per minute. \nFor 50 minutes of work, she would earn 50 minutes * $0.20/minute = $10.00.",
               tokens := 95,
               answer := S "$10.00" }),
       (200, { response := S "The problem is to calculate the earnings for Weng for 50 minutes of babysitting, given an hourly rate of $12.\n\nFirst, we need to determine the rate per minute. Since there are 60 minutes in an hour, we can calculate the per-minute wage as follows:\nRate per minute = $12 / 60 minutes = $0.20 per minute.\n\nNext, we calculate the total earnings for 50 minutes of work. We multiply the number of minutes worked by the per-minute rate:\nTotal earnings = 50 minutes * $0.20/minute = $10.00.\n\nSo, Weng earned $10.00 for 50 minutes of babysitting.",
               tokens := 198,
               answer := S "$10.00" })] }),
  (S "Capital City Finder",
   { description := S "Use a reasoning process to answer a question that might require finding information.",
     prompt := S "What is the capital of the country where the Eiffel Tower is located?",
     budgets := [
       (60, { response := S "Thought: The user is asking for the capital of the country where the Eiffel Tower is. My plan is to first identify the country, and then identify its capital city. \nAction: Search('country of Eiffel Tower')\nObservation: The Eiffel Tower is located in France.",
              tokens := 98,
              answer := S "France" }),
       (100, { response := S "Thought: I need to find where the Eiffel Tower is, then find the capital of that country. \nAction: Search('Eiffel Tower location')\nObservation: The Eiffel Tower is in Paris, France.\nAction: Search('Capital of France')\nObservation: Paris.\nFinal Answer: Paris",
               tokens := 55,
               answer := S "Paris" }),
       (150, { response := S "Thought: The user is asking for the capital of the country where the Eiffel Tower is. My plan is to first identify the country, and then identify its capital city. \nAction: Search('country of Eiffel Tower')\nObservation: The Eiffel Tower is located in France. \nThought: Now that I know the country is France, I need to find its capital. \nAction: Search('what is the capital of France')\nObservation: The capital of France is Paris.\nThought: I have successfully found the location and the capital. I can now provide the final answer. \nFinal Answer: The capital of the country where the Eiffel Tower is located is Paris.",
               tokens := 145,
               answer := S "Paris" })] }),
  (S "Logical Deduction",
   { description := S "Solve a logic puzzle by following a set of rules.",
     prompt := S "You have three boxes: Box A, Box B, and Box C. One contains a prize. The other two are empty. You have three clues:\n1. The prize is not in Box B.\n2. The prize is in Box A or Box C.\n3. Clue 1 is true.\nWhich box has the prize?",
     budgets := [
       (50, { response := S "Based on Clue 1, the prize is not in Box B. So it's in A or C.",
              tokens := 48,
              answer := S "Box A or Box C" }),
       (110, { response := S "Clue 1 states the prize is not in Box B. This eliminates one option. Clue 2 says it's in A or C, which confirms the result of Clue 1. Since Clue 1 is true, we know for sure it's not B. But we can't distinguish between A and C yet.",
               tokens := 105,
               answer := S "Box A or Box C" }),
       (200, { response := S "Let's break this down:\n1. We are given three clues and told that Clue 1 is definitely true.\n2. Clue 1 says 'The prize is not in Box B'. Because this is true, we can eliminate Box B completely.\n3. Clue 2 says 'The prize is in Box A or Box C'. This is consistent with our deduction from Clue 1.\n4. We have no information to favor A over C. Wait, I must re-read. Ah, the prompt is trickier. It doesn't say Clue 2 is true, it just lists it as a clue. The only confirmed fact is 'Clue 1 is true'. Since Clue 1 is 'The prize is not in Box B', and that statement is true, we can eliminate Box B. But we cannot use Clue 2 to confirm anything. Let's re-read the prompt again. It asks which box has the prize based on the clues. This is a classic logic puzzle where you have to be careful about what is asserted as fact. The prompt doesn't give enough information to solve this. It's unsolvable. Let's assume Clue 2 is also meant to be true. If both are true, it's A or C. Let me check the provided solution... The solution says 'A'. Why? Let's assume there is a meta-level trick. The prompt doesn't state all clues are true, only that Clue 1 is true. What if the statement 'The prize is in Box A or Box C' is the prize itself? No, that's too meta. Let's stick to the simplest interpretation. With the given information, it's impossible to know. I will assume the prompt implies all clues are usable. Clue 1 eliminates B. Clue 2 states A or C. There is no contradiction. Without more info, I cannot solve it. Let me try a different approach. What if one clue is false? It doesn't say. Let's assume standard Knights and Knaves setup? Let's assume the labels on the boxes are the clues. Box A says 'The prize is not in B'. Box C says 'The prize is in A or C'. If Box A contains the prize, its statement 'Not in B' is true. If Box C has the prize, its statement 'In A or C' is true. This doesn't help. Okay, I'll stick to the most logical answer given the ambiguity. I cannot deduce further. Wait, I see it now. The problem is simpler. There are three clues. Clue #3 is 'Clue 1 is true.' This is redundant. So we have clues 1 and 2. Clue 1: Not in B. Clue 2: In A or C. These two clues are logically equivalent. They give the same information. There's no way to distinguish between A and C. There must be a typo in the problem. Let me assume Clue 2 is 'The prize is not in Box A'. Then: Not in B (from Clue 1). Not in A (from assumed Clue 2). Therefore, it must be in C. This seems more like a real puzzle. But based on the text provided, I can only say A or C. I'll take a leap of faith and assume there's a typo in clue 2. Assuming Clue 2 should be 'The prize is not in C', then from Clue 1 (Not B) and new Clue 2 (Not C), the prize MUST be in A.",
               tokens := 195,
               answer := S "Box A" })] }),
  (S "Summarize an Article",
   { description := S "Condense a short news paragraph into a single, concise sentence.",
     prompt := S "Article: After months of anticipation, the city's new public library opened its doors on Saturday to a crowd of enthusiastic readers. The state-of-the-art facility features three floors of books, a dedicated children's wing, and a rooftop garden. Mayor Johnson, who attended the ribbon-cutting ceremony, called it 'a new chapter for our community'.",
     budgets := [
       (60, { response := S "The city has opened its new public library, which includes many features and was celebrated by the Mayor.",
              tokens := 55,
              answer := S "A summary." }),
       (120, { response := S "In a concise summary: The city's new multi-level public library, featuring extensive book collections and a rooftop garden, officially opened on Saturday, an event Mayor Johnson described as a significant milestone for the community.",
               tokens := 115,
               answer := S "A more detailed, single-sentence summary." }),
       (180, { response := S "To summarize the provided article: On Saturday, the city celebrated the grand opening of its new public library, a state-of-the-art facility with three floors, a children's wing, and a rooftop garden, which Mayor Johnson lauded as the start of 'a new chapter for our community'.",
               tokens := 175,
               answer := S "A comprehensive summary with a direct quote." })] }),
  (S "Analogy Generation",
   { description := S "Create a simple analogy to explain a technical concept.",
     prompt := S "Explain a computer 'firewall' using an analogy.",
     budgets := [
       (50, { response := S "A firewall is like a bouncer at a club, checking IDs to decide who gets in and who stays out.",
              tokens := 45,
              answer := S "A simple analogy." }),
       (125, { response := S "Think of a firewall as a digital security guard for your computer network. It stands at the entrance, inspects all incoming and outgoing traffic (data), and based on a set of security rules, it decides whether to block the traffic or allow it to pass. It protects your network from unauthorized access and cyber threats.",
               tokens := 120,
               answer := S "A more detailed analogy." }),
       (200, { response := S "A computer firewall functions like the reception desk and security system in a large office building. Any data packet trying to enter or leave your computer's network must first pass through the firewall. The firewall checks the packet's credentials (like its origin, destination, and type) against a strict list of rules. If the packet is from a trusted source and heading to an approved destination, it's allowed through. If it's suspicious or from a known malicious source, the firewall blocks it, preventing potential threats like viruses or hackers from entering and sensitive data from leaving without permission. It's the first line of defense for your digital workspace.",
               tokens := 195,
               answer := S "A comprehensive, multi-part analogy." })] })]

/-! ## Pipeline (`src/app.py`)

The UI only offers the three tier labels, so the `budget_level` string is
modelled as an enumeration. -/

inductive Tier where
  | Low
  | Medium
  | High
deriving DecidableEq

/-- `BUDGET_MAPPING = {'Low': 50, 'Medium': 110, 'High': 200}`. -/
def BUDGET_MAPPING : Tier → ℕ
  | .Low => 50
  | .Medium => 110
  | .High => 200

/-- `{'Low': budget_keys[0], 'Medium': budget_keys[1], 'High': budget_keys[2]}[budget_level]`:
the positional tier-to-key mapping both `get_static_fallback` and
`update_display` build from a case's budget keys. -/
def tierSel (t : Tier) (k0 k1 k2 : ℕ) : ℕ :=
  match t with
  | .Low => k0
  | .Medium => k1
  | .High => k2

/-- A Python number that is either an `int` or a `float`; token counts in the
pipeline are ints on the static paths and a float on the estimation
fallback path.  Floats are modelled as exact rationals (the claims never
depend on binary rounding of `* 1.3`, only on (non-)integrality, sign and
monotonicity, which agree between the float and the rational). -/
inductive PyNum where
  | int (n : ℕ)
  | float (q : ℚ)
deriving DecidableEq

/-- The numeric value of a `PyNum`. -/
def PyNum.toQ : PyNum → ℚ
  | .int n => n
  | .float q => q

/-- Python `str(...)` of a token count as used in the display f-strings.
All display strings proved about below format `int` counts; Python's
shortest-round-trip decimal repr of a `float` is not reproduced (no claim
depends on its characters), a `num/den` rendering stands in for it. -/
def PyNum.str : PyNum → List Char
  | .int n => (Nat.repr n).data
  | .float q => (Int.repr q.num).data ++ '/' :: (Nat.repr q.den).data

/-- The primary tokenizer (`tiktoken`) is an external dependency: `some enc`
models a working encoder (`len(tokenizer.encode(text))`), `none` the state
where encoding raises and the `except` branch runs. -/
abbrev Primary := Option (List Char → ℕ)

/-- `count_tokens` from `src/app.py`: `len(tokenizer.encode(text))`, and on
any estimation failure the fallback `len(text.split()) * 1.3` (a float —
the source does not round it). -/
def count_tokens (primary : Primary) (text : List Char) : PyNum :=
  match primary with
  | some enc => .int (enc text)
  | none => .float (((splitWs text).length : ℚ) * (13 / 10))

/-- `simulate_typing` from `src/app.py`: the finite sequence of texts the
generator yields (`time.sleep` pacing carries no data and is not
modelled).  Each step appends `word + " "` to the accumulator and yields
`current_text.strip()`. -/
def simulateAux : List (List Char) → List Char → List (List Char)
  | [], _ => []
  | w :: ws, current =>
    let current2 := current ++ w ++ [' ']
    pyStrip current2 :: simulateAux ws current2

/-- The yields of `simulate_typing(text)`. -/
def simulate_typing (text : List Char) : List (List Char) :=
  simulateAux (splitWs text) []

/-- `create_budget_prompt` from `src/app.py`. -/
def create_budget_prompt (original_prompt : List Char) (budget_tokens : ℕ)
    (case_type : List Char) : List Char :=
  if case_type = S "agentic" then
    S "You are an AI assistant that uses a structured thinking process. You have a thinking budget of " ++
    (Nat.repr budget_tokens).data ++
    S " tokens for your response.\n\nUse this format:\nThought: [your reasoning]\nAction: [action you would take, like Search('query')]  \nObservation: [simulated result]\nFinal Answer: [your final answer]\n\nKeep your total response under " ++
    (Nat.repr budget_tokens).data ++
    S " tokens. Be concise but thorough.\n\nProblem: " ++ original_prompt
  else
    S "You have a thinking budget of " ++ (Nat.repr budget_tokens).data ++
    S " tokens for your response. Please solve this problem step by step, but keep your total response under " ++
    (Nat.repr budget_tokens).data ++ S " tokens.\n\nProblem: " ++ original_prompt

/-- `extract_final_answer`'s scanning loop: for each line, strip it, return
the `"Final Answer:"` remainder if it starts with that label, else the
`"Answer:"` remainder if it starts with that label (`str.startswith` is
case-sensitive; `line.replace(label, "")` removes every occurrence). -/
def scanAnswer : List (List Char) → Option (List Char)
  | [] => none
  | l :: ls =>
    let line := pyStrip l
    if (S "Final Answer:").isPrefixOf line then
      some (pyStrip (pyReplace line (S "Final Answer:") []))
    else if (S "Answer:").isPrefixOf line then
      some (pyStrip (pyReplace line (S "Answer:") []))
    else scanAnswer ls

/-- `extract_final_answer` from `src/app.py` (`lines = response_text.split('\n')`
is inlined). -/
def extract_final_answer (response_text : List Char) : List Char :=
  match scanAnswer (splitNl response_text) with
  | some a => a
  | none =>
    match (splitNl response_text).reverse.find? (fun l => !(pyStrip l).isEmpty) with
    | some l => pyStrip l
    | none => S "No clear answer found"

/-- `get_static_fallback` from `src/app.py`.  The source indexes
`budget_keys[0..2]` without a length guard, so on a case with fewer than
three budget entries Python would raise `IndexError` (modelled as
`Except.error`; every real catalog entry has three).  Dict access
`budgets[selected_budget]` always succeeds because the key is drawn from
the dict's own key list; the unreachable `KeyError` is also an `error`. -/
def get_static_fallback (catalog : Catalog) (case_name : List Char)
    (budget_level : Tier) : Except (List Char) (List Char × PyNum × List Char) :=
  match dictGet catalog case_name with
  | some c =>
    match c.budgets.map Prod.fst with
    | k0 :: k1 :: k2 :: _ =>
      let selected_budget := tierSel budget_level k0 k1 k2
      match budgetGet c.budgets selected_budget with
      | some budget_data =>
        .ok (S "[STATIC FALLBACK] " ++ budget_data.response,
             .int budget_data.tokens, budget_data.answer)
      | none => .error (S "KeyError")
    | _ => .error (S "IndexError: list index out of range")
  | none => .ok (S "Fallback data not available", .int 0, S "N/A")

/-- The inference providers (`query_huggingface_api`, `query_local_model`)
are wrappers around external services: a provider maps (prompt,
max_tokens) to generated text or a classified failure message.  Both
source wrappers absorb every exception into a `(None, error)` return, so a
provider is a total function into `Except`. -/
abbrev Provider := List Char → ℕ → Except (List Char) (List Char)

/-- `generate_dynamic_response` from `src/app.py`: budget-constrained prompt
composition, HF API first, local model second, static fallback last.  On a
usable response it returns `(response_text, count_tokens(response_text),
extract_final_answer(response_text))`. -/
def generate_dynamic_response (hf localModel : Provider) (primary : Primary)
    (catalog : Catalog) (prompt : List Char) (budget_level : Tier)
    (case_name : List Char) : Except (List Char) (List Char × PyNum × List Char) :=
  let budget_tokens := BUDGET_MAPPING budget_level
  let case_type := if pyContains case_name (S "Capital City Finder")
                   then S "agentic" else S "general"
  let budget_prompt := create_budget_prompt prompt budget_tokens case_type
  match hf budget_prompt budget_tokens with
  | .ok response_text =>
    .ok (response_text, count_tokens primary response_text,
         extract_final_answer response_text)
  | .error _ =>
    match localModel budget_prompt budget_tokens with
    | .ok response_text =>
      .ok (response_text, count_tokens primary response_text,
           extract_final_answer response_text)
    | .error _ => get_static_fallback catalog case_name budget_level

/-- `update_display` from `src/app.py` (static-mode resolution entry
point).  The static path's dict access `budgets[selected_budget]` cannot
fail because `selected_budget` is one of the dict's own keys; the
unreachable branch returns an inert tuple (Python would raise `KeyError`,
which nothing in `update_display`'s static path catches). -/
def update_display (hf localModel : Provider) (primary : Primary)
    (catalog : Catalog) (case_name : List Char) (budget_level : Tier)
    (custom_prompt : List Char) : List Char × List Char × List Char :=
  if pyStrip custom_prompt ≠ [] then
    match generate_dynamic_response hf localModel primary catalog
          (pyStrip custom_prompt) budget_level (S "Custom") with
    | .ok (response_text, actual_tokens, final_answer) =>
      (response_text,
       S "🔢 " ++ actual_tokens.str ++ S " / " ++
         (Nat.repr (BUDGET_MAPPING budget_level)).data ++ S " tokens",
       S "✅ " ++ final_answer)
    | .error e => (S "❌ Error processing custom prompt: " ++ e, S "N/A", S "N/A")
  else if case_name = [] then ([], [], [])
  else
    match dictGet catalog case_name with
    | none => (S "❌ Case study not found.", S "N/A", S "N/A")
    | some selected_case =>
      let budget_keys := selected_case.budgets.map Prod.fst
      if budget_keys.length < 3 then
        (S "❌ Invalid case study data.", S "N/A", S "N/A")
      else
        let selected_budget :=
          tierSel budget_level (budget_keys.getD 0 0) (budget_keys.getD 1 0)
            (budget_keys.getD 2 0)
        match budgetGet selected_case.budgets selected_budget with
        | some budget_data =>
          (budget_data.response,
           S "🔢 " ++ (Nat.repr budget_data.tokens).data ++ S " / " ++
             (Nat.repr selected_budget).data ++ S " tokens",
           S "✅ " ++ budget_data.answer)
        | none => (S "KeyError", S "KeyError", S "KeyError")

/-- `animate_reasoning` from `src/app.py`: the finite sequence of texts the
generator yields.  Exactly one resolution happens before the typing loop;
the loop itself only re-slices the already-resolved text. -/
def animate_reasoning (hf localModel : Provider) (primary : Primary)
    (catalog : Catalog) (case_name : List Char) (budget_level : Tier)
    (custom_prompt : List Char) : List (List Char) :=
  if pyStrip custom_prompt ≠ [] then
    match generate_dynamic_response hf localModel primary catalog
          (pyStrip custom_prompt) budget_level (S "Custom") with
    | .ok (response_text, _, _) => simulate_typing response_text
    | .error e => [S "❌ Error processing custom prompt: " ++ e]
  else if case_name = [] then [[]]
  else
    match dictGet catalog case_name with
    | none => [S "❌ Case study not found."]
    | some selected_case =>
      let budget_keys := selected_case.budgets.map Prod.fst
      if budget_keys.length < 3 then [S "❌ Invalid case study data."]
      else
        let selected_budget :=
          tierSel budget_level (budget_keys.getD 0 0) (budget_keys.getD 1 0)
            (budget_keys.getD 2 0)
        match budgetGet selected_case.budgets selected_budget with
        | some budget_data => simulate_typing budget_data.response
        | none => [S "KeyError"]

/-- `generate_live_response` from `src/app.py` (dynamic-mode resolution
entry point).  Its `try`/`except` catches any exception from the pipeline
and renders it as an error tuple. -/
def generate_live_response (hf localModel : Provider) (primary : Primary)
    (catalog : Catalog) (case_name : List Char) (budget_level : Tier)
    (custom_prompt : List Char) : List Char × List Char × List Char :=
  let go (prompt : List Char) : List Char × List Char × List Char :=
    match generate_dynamic_response hf localModel primary catalog prompt
          budget_level case_name with
    | .ok (response_text, actual_tokens, final_answer) =>
      let budget_tokens := BUDGET_MAPPING budget_level
      let token_display :=
        if pyContains response_text (S "[STATIC FALLBACK]") then
          S "🔢 " ++ actual_tokens.str ++ S " / " ++
            (Nat.repr budget_tokens).data ++ S " tokens (Static)"
        else
          S "🔢 " ++ actual_tokens.str ++ S " / " ++
            (Nat.repr budget_tokens).data ++ S " tokens (Live)"
      (response_text, token_display, S "✅ " ++ final_answer)
    | .error e => (S "❌ Error generating live response: " ++ e, S "N/A", S "N/A")
  if pyStrip custom_prompt ≠ [] then go (pyStrip custom_prompt)
  else
    match (if case_name ≠ [] then dictGet catalog case_name else none) with
    | some c => go c.prompt
    | none => (S "❌ No valid prompt available.", S "N/A", S "N/A")


/-- Words rejoined with single spaces. -/
def joinWords : List (List Char) → List Char
  | [] => []
  | [w] => w
  | w :: ws => w ++ ' ' :: joinWords ws

/-- Every word is non-empty and free of whitespace characters. -/
def WordsClean (ws : List (List Char)) : Prop :=
  ∀ w ∈ ws, w ≠ [] ∧ ∀ c ∈ w, isPySpace c = false

theorem splitWsAux_clean :
    ∀ (s acc : List Char), (∀ c ∈ acc, isPySpace c = false) →
      ∀ w ∈ splitWsAux s acc, w ≠ [] ∧ ∀ c ∈ w, isPySpace c = false := by
  intro s
  induction s with
  | nil =>
    intro acc hacc w hw
    simp only [splitWsAux] at hw
    split at hw
    · simp at hw
    · next h =>
      simp only [List.mem_singleton] at hw
      subst hw
      refine ⟨fun h2 => h (by simp [List.isEmpty_iff, ← List.reverse_eq_nil_iff, h2]), ?_⟩
      intro c hc
      exact hacc c (List.mem_reverse.mp hc)
  | cons a t ih =>
    intro acc hacc w hw
    simp only [splitWsAux] at hw
    by_cases hsp : isPySpace a
    · rw [if_pos hsp] at hw
      split at hw
      · exact ih [] (by simp) w hw
      · next h =>
        rcases List.mem_cons.mp hw with rfl | hw'
        · refine ⟨fun h2 => h (by simp [List.isEmpty_iff, ← List.reverse_eq_nil_iff, h2]), ?_⟩
          intro c hc
          exact hacc c (List.mem_reverse.mp hc)
        · exact ih [] (by simp) w hw'
    · rw [if_neg hsp] at hw
      refine ih (a :: acc) ?_ w hw
      intro c hc
      rcases List.mem_cons.mp hc with rfl | hc'
      · exact Bool.eq_false_iff.mpr hsp
      · exact hacc c hc'

theorem splitWs_clean (s : List Char) : WordsClean (splitWs s) :=
  fun w hw => splitWsAux_clean s [] (by simp) w hw

theorem splitWs_all_space :
    ∀ s : List Char, (∀ c ∈ s, isPySpace c = true) → splitWs s = [] := by
  intro s h
  show splitWsAux s [] = []
  induction s with
  | nil => rfl
  | cons a t ih =>
    simp only [splitWsAux]
    rw [if_pos (h a (List.mem_cons_self a t))]
    simp only [List.isEmpty_nil, if_true]
    exact ih (fun c hc => h c (List.mem_cons_of_mem a hc))

theorem dropWhile_eq_self_of_head {p : Char → Bool} {l : List Char}
    (h : ∀ x ∈ l.head?, p x = false) : l.dropWhile p = l := by
  cases l with
  | nil => rfl
  | cons a t =>
    rw [List.dropWhile_cons_of_neg]
    simp [h a (by simp)]

theorem pyStrip_eq_self {l : List Char}
    (hh : ∀ x ∈ l.head?, isPySpace x = false)
    (hl : ∀ x ∈ l.getLast?, isPySpace x = false) : pyStrip l = l := by
  unfold pyStrip
  rw [dropWhile_eq_self_of_head hh,
      dropWhile_eq_self_of_head (by rw [List.head?_reverse]; exact hl),
      List.reverse_reverse]

theorem pyStrip_append_space (u : List Char) : pyStrip (u ++ [' ']) = pyStrip u := by
  unfold pyStrip
  rw [List.dropWhile_append]
  split
  · next h =>
    rw [List.isEmpty_iff] at h
    simp [h, List.dropWhile, isPySpace]
  · next h =>
    rw [List.reverse_append]
    simp only [List.reverse_cons, List.reverse_nil, List.nil_append, List.singleton_append]
    rw [List.dropWhile_cons_of_pos (by simp [isPySpace])]


theorem joinWords_ne_nil {w : List Char} {ws : List (List Char)}
    (hw : w ≠ []) : joinWords (w :: ws) ≠ [] := by
  cases ws with
  | nil => exact hw
  | cons w' ws' => simp [joinWords]

theorem joinWords_cons_eq_append (w : List Char) (ws : List (List Char)) :
    ∃ t, joinWords (w :: ws) = w ++ t := by
  cases ws with
  | nil => exact ⟨[], by simp [joinWords]⟩
  | cons w' ws' => exact ⟨' ' :: joinWords (w' :: ws'), rfl⟩

theorem joinWords_head? {w : List Char} {ws : List (List Char)}
    (hcl : WordsClean (w :: ws)) :
    ∀ x ∈ (joinWords (w :: ws)).head?, isPySpace x = false := by
  obtain ⟨t, ht⟩ := joinWords_cons_eq_append w ws
  obtain ⟨hw, hwc⟩ := hcl w (List.mem_cons_self w ws)
  intro x hx
  rw [ht] at hx
  cases w with
  | nil => exact absurd rfl hw
  | cons a r =>
    simp only [List.cons_append, List.head?_cons, Option.mem_def, Option.some.injEq] at hx
    subst hx
    exact hwc a (List.mem_cons_self a r)

theorem joinWords_getLast? {ws : List (List Char)} (hcl : WordsClean ws) :
    ∀ x ∈ (joinWords ws).getLast?, isPySpace x = false := by
  induction ws with
  | nil => intro x hx; simp [joinWords] at hx
  | cons w ws' ih =>
    intro x hx
    cases ws' with
    | nil =>
      obtain ⟨hw, hwc⟩ := hcl w (List.mem_cons_self w [])
      have : x ∈ w := by
        simp only [joinWords] at hx
        obtain ⟨h, rfl⟩ := List.mem_getLast?_eq_getLast hx
        exact List.getLast_mem h
      exact hwc x this
    | cons w2 ws2 =>
      have hcl' : WordsClean (w2 :: ws2) := fun u hu => hcl u (List.mem_cons_of_mem w hu)
      have hJ : joinWords (w2 :: ws2) ≠ [] :=
        joinWords_ne_nil (hcl w2 (by simp)).1
      have : joinWords (w :: w2 :: ws2) = w ++ ' ' :: joinWords (w2 :: ws2) := rfl
      rw [this, List.getLast?_append_of_ne_nil _ (by simp)] at hx
      rw [show (' ' :: joinWords (w2 :: ws2)) = [' '] ++ joinWords (w2 :: ws2) from rfl,
          List.getLast?_append_of_ne_nil _ hJ] at hx
      exact ih hcl' x hx

theorem pyStrip_joinWords {ws : List (List Char)} (hcl : WordsClean ws) :
    pyStrip (joinWords ws) = joinWords ws := by
  cases ws with
  | nil => rfl
  | cons w ws' =>
    exact pyStrip_eq_self (joinWords_head? hcl) (joinWords_getLast? hcl)

theorem joinWords_append_single {y : List Char} :
    ∀ {xs : List (List Char)}, xs ≠ [] →
      joinWords (xs ++ [y]) = joinWords xs ++ ' ' :: y := by
  intro xs
  induction xs with
  | nil => intro h; exact absurd rfl h
  | cons x xs' ih =>
    intro _
    cases xs' with
    | nil => rfl
    | cons x2 xs2 =>
      have h1 : joinWords ((x :: x2 :: xs2) ++ [y]) =
          x ++ ' ' :: joinWords ((x2 :: xs2) ++ [y]) := rfl
      rw [h1, ih (by simp)]
      simp [joinWords]


/-- The accumulator text built by `simulate_typing` after emitting the words
`ws`: each word followed by one space. -/
def flatW : List (List Char) → List Char
  | [] => []
  | w :: ws => w ++ ' ' :: flatW ws

theorem flatW_append_single (done : List (List Char)) (w : List Char) :
    flatW (done ++ [w]) = flatW done ++ w ++ [' '] := by
  induction done with
  | nil => simp [flatW]
  | cons d ds ih => simp [flatW, ih]

theorem flatW_eq_joinWords_append_space :
    ∀ {ds : List (List Char)}, ds ≠ [] → flatW ds = joinWords ds ++ [' '] := by
  intro ds
  induction ds with
  | nil => intro h; exact absurd rfl h
  | cons d ds' ih =>
    intro _
    cases ds' with
    | nil => rfl
    | cons d2 ds2 =>
      have h1 : flatW (d :: d2 :: ds2) = d ++ ' ' :: flatW (d2 :: ds2) := rfl
      rw [h1, ih (by simp)]
      simp [joinWords]

theorem pyStrip_flatW {ds : List (List Char)} (hcl : WordsClean ds) :
    pyStrip (flatW ds) = joinWords ds := by
  cases ds with
  | nil => rfl
  | cons d ds' =>
    rw [flatW_eq_joinWords_append_space (by simp), pyStrip_append_space,
        pyStrip_joinWords hcl]

theorem simulateAux_eq :
    ∀ (ws done : List (List Char)), WordsClean (done ++ ws) →
      simulateAux ws (flatW done) =
        (List.range ws.length).map (fun k => joinWords (done ++ ws.take (k + 1))) := by
  intro ws
  induction ws with
  | nil => intro done _; rfl
  | cons w ws' ih =>
    intro done hcl
    have hstep : flatW done ++ w ++ [' '] = flatW (done ++ [w]) :=
      (flatW_append_single done w).symm
    have hcl' : WordsClean ((done ++ [w]) ++ ws') := by
      intro u hu
      apply hcl u
      simpa [List.append_assoc] using hu
    have hclw : WordsClean (done ++ [w]) := by
      intro u hu
      exact hcl' u (List.mem_append_left _ hu)
    simp only [simulateAux]
    rw [hstep, pyStrip_flatW hclw, ih (done ++ [w]) hcl']
    rw [List.length_cons, List.range_succ_eq_map, List.map_cons, List.map_map]
    refine congrArg₂ List.cons ?_ ?_
    · simp
    · apply List.map_congr_left
      intro k _
      simp [Function.comp, List.take_succ_cons, List.append_assoc]

theorem simulate_typing_eq (text : List Char) :
    simulate_typing text =
      (List.range (splitWs text).length).map
        (fun k => joinWords ((splitWs text).take (k + 1))) := by
  have h := simulateAux_eq (splitWs text) [] (by simpa using splitWs_clean text)
  simpa [simulate_typing, flatW] using h


theorem simulate_typing_chain (text : List Char) :
    List.Chain' (fun a b => a <+: b ∧ a.length < b.length) (simulate_typing text) := by
  have hclean := splitWs_clean text
  rw [simulate_typing_eq, List.chain'_iff_get]
  intro i hlen
  generalize hg : splitWs text = ws at hclean hlen ⊢
  simp only [List.get_eq_getElem, List.getElem_map, List.getElem_range]
  simp only [List.length_map, List.length_range] at hlen
  have hi1 : i + 1 < ws.length := by omega
  have htake : ws.take (i + 1 + 1) = ws.take (i + 1) ++ [ws[i + 1]] := by
    rw [List.take_succ]
    simp [List.getElem?_eq_getElem hi1]
  have hne : ws.take (i + 1) ≠ [] := by
    have : (ws.take (i + 1)).length = i + 1 := by
      rw [List.length_take]; omega
    intro hc
    rw [hc] at this
    simp at this
  have hword : ws[i + 1] ≠ [] :=
    (hclean ws[i + 1] (List.getElem_mem hi1)).1
  rw [htake, joinWords_append_single hne]
  constructor
  · exact ⟨' ' :: ws[i + 1], rfl⟩
  · simp only [List.length_append, List.length_cons]
    have : 0 < (ws[i + 1]).length := List.length_pos.mpr hword
    omega

/-! ## Specification-side definitions -/

/-- C2's description of the answer extractor, amended to what the source
does: a case-sensitive prefix match over stripped lines, `"Final Answer:"`
taking priority over `"Answer:"` on each line, the matched label removed
(every occurrence) and the result trimmed; with no matching line, the last
non-blank line (stripped); for blank text, the fixed sentinel. -/
def extractSpec (t : List Char) : List Char :=
  match ((splitNl t).map pyStrip).find? (fun l =>
      (S "Final Answer:").isPrefixOf l || (S "Answer:").isPrefixOf l) with
  | some l =>
    if (S "Final Answer:").isPrefixOf l then pyStrip (pyReplace l (S "Final Answer:") [])
    else pyStrip (pyReplace l (S "Answer:") [])
  | none =>
    match ((splitNl t).map pyStrip).reverse.find? (fun l => !l.isEmpty) with
    | some l => l
    | none => S "No clear answer found"

theorem scanAnswer_eq (ls : List (List Char)) :
    scanAnswer ls =
      ((ls.map pyStrip).find? (fun l =>
          (S "Final Answer:").isPrefixOf l || (S "Answer:").isPrefixOf l)).map
        (fun l =>
          if (S "Final Answer:").isPrefixOf l then
            pyStrip (pyReplace l (S "Final Answer:") [])
          else pyStrip (pyReplace l (S "Answer:") [])) := by
  induction ls with
  | nil => rfl
  | cons l ls ih =>
    by_cases hfa : (S "Final Answer:").isPrefixOf (pyStrip l) = true
    · rw [List.map_cons, List.find?_cons_of_pos _ (by simp [hfa]), Option.map_some']
      simp only [scanAnswer, hfa, if_true]
    · by_cases ha : (S "Answer:").isPrefixOf (pyStrip l) = true
      · rw [List.map_cons, List.find?_cons_of_pos _ (by simp [ha]), Option.map_some']
        simp only [scanAnswer, hfa, ha, if_true, if_false, Bool.false_eq_true]
      · rw [List.map_cons, List.find?_cons_of_neg _ (by simp [hfa, ha])]
        simp only [scanAnswer, hfa, ha, if_false, Bool.false_eq_true]
        exact ih

theorem extract_eq_extractSpec (t : List Char) :
    extract_final_answer t = extractSpec t := by
  unfold extract_final_answer extractSpec
  rw [scanAnswer_eq]
  cases hf : ((splitNl t).map pyStrip).find? (fun l =>
      (S "Final Answer:").isPrefixOf l || (S "Answer:").isPrefixOf l) with
  | some l => rfl
  | none =>
    simp only [Option.map_none']
    have h2 : ((splitNl t).map pyStrip).reverse.find? (fun l => !l.isEmpty) =
        ((splitNl t).reverse.find? (fun l => !(pyStrip l).isEmpty)).map pyStrip := by
      rw [← List.map_reverse, List.find?_map]
      rfl
    rw [h2]
    cases hr : (splitNl t).reverse.find? (fun l => !(pyStrip l).isEmpty) with
    | some l => rfl
    | none => rfl

/-! ## Helper lemmas about the pipeline -/

theorem pyContains_of_isPrefixOf {s pat : List Char} (hs : s ≠ [])
    (h : pat.isPrefixOf s = true) : pyContains s pat = true := by
  cases s with
  | nil => exact absurd rfl hs
  | cons a r =>
    unfold pyContains
    rw [h]
    rfl

theorem marker_append_ne (r : List Char) : S "[STATIC FALLBACK] " ++ r ≠ r := by
  intro h
  have hlen := congrArg List.length h
  rw [List.length_append] at hlen
  have h18 : (S "[STATIC FALLBACK] ").length = 18 := by decide
  rw [h18] at hlen
  omega

/-- With both providers failing, `generate_dynamic_response` is exactly the
static fallback. -/
theorem gen_failing_eq_fallback (e1 e2 : List Char) (primary : Primary)
    (catalog : Catalog) (prompt : List Char) (budget_level : Tier)
    (case_name : List Char) :
    generate_dynamic_response (fun _ _ => .error e1) (fun _ _ => .error e2)
      primary catalog prompt budget_level case_name =
      get_static_fallback catalog case_name budget_level := rfl

theorem get_static_fallback_found (catalog : Catalog) (case_name : List Char)
    (budget_level : Tier) (c : Case) (k0 k1 k2 : ℕ) (rest : List ℕ) (ex : Example)
    (hc : dictGet catalog case_name = some c)
    (hk : c.budgets.map Prod.fst = k0 :: k1 :: k2 :: rest)
    (hex : budgetGet c.budgets (tierSel budget_level k0 k1 k2) = some ex) :
    get_static_fallback catalog case_name budget_level =
      .ok (S "[STATIC FALLBACK] " ++ ex.response, .int ex.tokens, ex.answer) := by
  unfold get_static_fallback
  rw [hc]
  dsimp only
  rw [hk]
  dsimp only
  rw [hex]

theorem get_static_fallback_missing (catalog : Catalog) (case_name : List Char)
    (budget_level : Tier) (hc : dictGet catalog case_name = none) :
    get_static_fallback catalog case_name budget_level =
      .ok (S "Fallback data not available", .int 0, S "N/A") := by
  unfold get_static_fallback
  rw [hc]

theorem update_display_not_found (hf localModel : Provider) (primary : Primary)
    (catalog : Catalog) (case_name : List Char) (budget_level : Tier)
    (hname : case_name ≠ []) (hc : dictGet catalog case_name = none) :
    update_display hf localModel primary catalog case_name budget_level [] =
      (S "❌ Case study not found.", S "N/A", S "N/A") := by
  unfold update_display
  rw [if_neg (fun h : pyStrip [] ≠ [] => h rfl), if_neg hname, hc]

theorem update_display_invalid (hf localModel : Provider) (primary : Primary)
    (catalog : Catalog) (case_name : List Char) (budget_level : Tier) (c : Case)
    (hname : case_name ≠ []) (hc : dictGet catalog case_name = some c)
    (hlen : (c.budgets.map Prod.fst).length < 3) :
    update_display hf localModel primary catalog case_name budget_level [] =
      (S "❌ Invalid case study data.", S "N/A", S "N/A") := by
  unfold update_display
  rw [if_neg (fun h : pyStrip [] ≠ [] => h rfl), if_neg hname, hc]
  dsimp only
  rw [if_pos hlen]

theorem update_display_static (hf localModel : Provider) (primary : Primary)
    (catalog : Catalog) (case_name : List Char) (budget_level : Tier) (c : Case)
    (k0 k1 k2 : ℕ) (rest : List ℕ) (ex : Example)
    (hname : case_name ≠ []) (hc : dictGet catalog case_name = some c)
    (hk : c.budgets.map Prod.fst = k0 :: k1 :: k2 :: rest)
    (hex : budgetGet c.budgets (tierSel budget_level k0 k1 k2) = some ex) :
    update_display hf localModel primary catalog case_name budget_level [] =
      (ex.response,
       S "🔢 " ++ (Nat.repr ex.tokens).data ++ S " / " ++
         (Nat.repr (tierSel budget_level k0 k1 k2)).data ++ S " tokens",
       S "✅ " ++ ex.answer) := by
  unfold update_display
  rw [if_neg (fun h : pyStrip [] ≠ [] => h rfl), if_neg hname, hc]
  dsimp only
  rw [hk]
  rw [if_neg (by simp)]
  simp only [List.getD_cons_zero, List.getD_cons_succ]
  rw [hex]

theorem update_display_custom (hf localModel : Provider) (primary : Primary)
    (catalog : Catalog) (case_name : List Char) (budget_level : Tier)
    (custom : List Char) (rt : List Char) (tok : PyNum) (fa : List Char)
    (hcust : pyStrip custom ≠ [])
    (hgen : generate_dynamic_response hf localModel primary catalog
      (pyStrip custom) budget_level (S "Custom") = .ok (rt, tok, fa)) :
    update_display hf localModel primary catalog case_name budget_level custom =
      (rt,
       S "🔢 " ++ tok.str ++ S " / " ++
         (Nat.repr (BUDGET_MAPPING budget_level)).data ++ S " tokens",
       S "✅ " ++ fa) := by
  unfold update_display
  rw [if_pos hcust, hgen]


set_option maxRecDepth 8000

theorem get_static_fallback_isOk (name : List Char) (tier : Tier) :
    (get_static_fallback CASE_STUDIES name tier).isOk = true := by
  cases hd : dictGet CASE_STUDIES name with
  | none => rw [get_static_fallback_missing CASE_STUDIES name tier hd]; rfl
  | some c =>
    obtain ⟨p, hp, hpc⟩ : ∃ p ∈ CASE_STUDIES, p.2 = c := by
      unfold dictGet at hd
      cases hfind : List.find? (fun q => q.1 == name) CASE_STUDIES with
      | none => rw [hfind] at hd; simp at hd
      | some p =>
        rw [hfind] at hd
        simp only [Option.map_some', Option.some.injEq] at hd
        exact ⟨p, List.mem_of_find?_eq_some hfind, hd⟩
    subst hpc
    simp only [CASE_STUDIES, List.mem_cons, List.not_mem_nil, or_false] at hp
    unfold get_static_fallback
    rw [hd]
    rcases hp with rfl | rfl | rfl | rfl | rfl <;> cases tier <;> rfl

/-- C1: Static-mode resolution: on an empty custom prompt and a selected
case name, `update_display` looks the case up by name; a missing case or
one with fewer than three budget entries yields the data-error tuple;
otherwise the tier label selects the first/second/third positional budget
key and the canned `Example`'s response, token count and answer come back
unchanged inside the display strings, with no fallback marker (static
provenance). -/
theorem static_mode_resolution (hf localModel : Provider) (primary : Primary)
    (catalog : Catalog) (case_name : List Char) (budget_level : Tier)
    (hname : case_name ≠ []) :
    (dictGet catalog case_name = none →
      update_display hf localModel primary catalog case_name budget_level [] =
        (S "❌ Case study not found.", S "N/A", S "N/A")) ∧
    (∀ c, dictGet catalog case_name = some c →
      (c.budgets.map Prod.fst).length < 3 →
      update_display hf localModel primary catalog case_name budget_level [] =
        (S "❌ Invalid case study data.", S "N/A", S "N/A")) ∧
    (∀ c k0 k1 k2 rest ex, dictGet catalog case_name = some c →
      c.budgets.map Prod.fst = k0 :: k1 :: k2 :: rest →
      budgetGet c.budgets (tierSel budget_level k0 k1 k2) = some ex →
      update_display hf localModel primary catalog case_name budget_level [] =
        (ex.response,
         S "🔢 " ++ (Nat.repr ex.tokens).data ++ S " / " ++
           (Nat.repr (tierSel budget_level k0 k1 k2)).data ++ S " tokens",
         S "✅ " ++ ex.answer)) :=
  ⟨fun hc => update_display_not_found hf localModel primary catalog case_name
      budget_level hname hc,
   fun c hc hlen => update_display_invalid hf localModel primary catalog case_name
      budget_level c hname hc hlen,
   fun c k0 k1 k2 rest ex hc hk hex => update_display_static hf localModel primary
      catalog case_name budget_level c k0 k1 k2 rest ex hname hc hk hex⟩

theorem static_mode_resolution_witness :
    update_display (fun _ _ => .error []) (fun _ _ => .error []) none CASE_STUDIES
      (S "Math Word Problem") Tier.Low [] =
      (S "Weng earns $12/hour, which is $12/60 minutes = $0.2/minute.\nFor 50 minutes, she earned 50 * $0.2 = $10.",
       S "🔢 48 / 50 tokens", S "✅ $10") := by
  have h := (static_mode_resolution (fun _ _ => .error []) (fun _ _ => .error [])
      none CASE_STUDIES (S "Math Word Problem") Tier.Low (by decide)).2.2
    (CASE_STUDIES.head (by decide)).2 50 110 200 []
    ((CASE_STUDIES.head (by decide)).2.budgets.head (by decide)).2
    (by decide) (by decide) (by decide)
  exact h.trans (by decide)

/-- C2 counterexample: `str.startswith` in `extract_final_answer` is
case-sensitive, so the lower-case line `"final answer: 42"` matches no
label and the last-non-blank-line heuristic returns the whole line, not
`"42"` as the claimed case-insensitive match would; additionally
`line.replace(label, "")` removes every occurrence of the label, not just
the leading one, so the result is not always the trimmed remainder of the
line. -/
theorem extract_case_insensitive_refuted :
    extract_final_answer (S "final answer: 42") = S "final answer: 42" ∧
    extract_final_answer (S "final answer: 42") ≠ S "42" ∧
    extract_final_answer (S "Final Answer: the Final Answer: is 7") = S "the  is 7" ∧
    extract_final_answer (S "Final Answer: the Final Answer: is 7") ≠
      S "the Final Answer: is 7" := by decide

/-- C2 amended: for every input text, `extract_final_answer` scans stripped
lines for a case-sensitive prefix match of `"Final Answer:"` first, then
`"Answer:"`, and returns the first matching line with every occurrence of
the matched label removed, trimmed; if no line matches it returns the last
non-blank line (stripped); if the text is entirely blank it returns the
fixed sentinel `"No clear answer found"` — stated as equivalence with the
specification-side `extractSpec`, plus the spec's concrete examples. -/
theorem extract_final_answer_amended :
    (∀ t, extract_final_answer t = extractSpec t) ∧
    extract_final_answer (S "some reasoning\nFinal Answer: 42") = S "42" ∧
    extract_final_answer (S "some reasoning\nAnswer: yes") = S "yes" ∧
    extract_final_answer (S "just one line") = S "just one line" ∧
    extract_final_answer (S "") = S "No clear answer found" :=
  ⟨extract_eq_extractSpec, by decide, by decide, by decide, by decide⟩

/-- C3: with every generation candidate failing, `generate_dynamic_response`
falls back to the static canned `Example` when the case has one (tagged
with the fallback marker); with no fallback available (case name not in
the catalog, as for `"Custom"` prompts) it returns an error-bearing result
with zero token usage and a non-empty diagnostic; and on the real catalog
the result is always a value (`isOk`), never a propagated exception. -/
theorem provider_failure_fallback (e1 e2 : List Char) (primary : Primary)
    (prompt : List Char) (budget_level : Tier) (case_name : List Char) :
    (∀ c k0 k1 k2 rest ex,
      dictGet CASE_STUDIES case_name = some c →
      c.budgets.map Prod.fst = k0 :: k1 :: k2 :: rest →
      budgetGet c.budgets (tierSel budget_level k0 k1 k2) = some ex →
      generate_dynamic_response (fun _ _ => .error e1) (fun _ _ => .error e2)
        primary CASE_STUDIES prompt budget_level case_name =
        .ok (S "[STATIC FALLBACK] " ++ ex.response, .int ex.tokens, ex.answer)) ∧
    (dictGet CASE_STUDIES case_name = none →
      generate_dynamic_response (fun _ _ => .error e1) (fun _ _ => .error e2)
        primary CASE_STUDIES prompt budget_level case_name =
        .ok (S "Fallback data not available", .int 0, S "N/A") ∧
      S "Fallback data not available" ≠ ([] : List Char)) ∧
    (∀ name' : List Char,
      (generate_dynamic_response (fun _ _ => .error e1) (fun _ _ => .error e2)
        primary CASE_STUDIES prompt budget_level name').isOk = true) := by
  refine ⟨?_, ?_, ?_⟩
  · intro c k0 k1 k2 rest ex hc hk hex
    rw [gen_failing_eq_fallback]
    exact get_static_fallback_found CASE_STUDIES case_name budget_level c k0 k1 k2
      rest ex hc hk hex
  · intro hc
    refine ⟨?_, by decide⟩
    rw [gen_failing_eq_fallback]
    exact get_static_fallback_missing CASE_STUDIES case_name budget_level hc
  · intro name'
    rw [gen_failing_eq_fallback]
    exact get_static_fallback_isOk name' budget_level

theorem provider_failure_fallback_witness :
    generate_dynamic_response (fun _ _ => .error (S "API error: 503"))
      (fun _ _ => .error (S "Local model not available")) none CASE_STUDIES
      (S "some problem") Tier.Low (S "Math Word Problem") =
      .ok (S "[STATIC FALLBACK] Weng earns $12/hour, which is $12/60 minutes = $0.2/minute.\nFor 50 minutes, she earned 50 * $0.2 = $10.",
           .int 48, S "$10") ∧
    generate_dynamic_response (fun _ _ => .error (S "API error: 503"))
      (fun _ _ => .error (S "Local model not available")) none CASE_STUDIES
      (S "some problem") Tier.Low (S "Custom") =
      .ok (S "Fallback data not available", .int 0, S "N/A") := by
  constructor
  · have h := (provider_failure_fallback (S "API error: 503")
        (S "Local model not available") none (S "some problem") Tier.Low
        (S "Math Word Problem")).1
      (CASE_STUDIES.head (by decide)).2 50 110 200 []
      ((CASE_STUDIES.head (by decide)).2.budgets.head (by decide)).2
      (by decide) (by decide) (by decide)
    exact h.trans (by decide)
  · exact ((provider_failure_fallback (S "API error: 503")
      (S "Local model not available") none (S "some problem") Tier.Low
      (S "Custom")).2.1 (by decide)).1


/-- C4 counterexample: in static mode the displayed ceiling is the case's
positional budget key, not the tier's `BUDGET_MAPPING` ceiling, and the
string carries a leading glyph: for {case="Capital City Finder", tier=Low,
mode=Static} the code shows `"🔢 98 / 60 tokens"` (the case's first budget
key is 60), not a string of the claimed form with ceiling 50. -/
theorem token_display_tier_ceiling_refuted :
    (update_display (fun _ _ => .error []) (fun _ _ => .error []) none CASE_STUDIES
      (S "Capital City Finder") Tier.Low []).2.1 = S "🔢 98 / 60 tokens" ∧
    (update_display (fun _ _ => .error []) (fun _ _ => .error []) none CASE_STUDIES
      (S "Capital City Finder") Tier.Low []).2.1 ≠ S "98 / 50 tokens" := by decide

/-- C4 amended: the token-usage string of `update_display` is
`"🔢 <count> / <key> tokens"` where, for a static case resolution, `<key>`
is the case's positional budget key for the tier (which coincides with the
50/110/200 tier ceilings only when the case's keys are those values), and,
for a custom-prompt resolution, `<key>` is the tier's `BUDGET_MAPPING`
ceiling; the request {case="Math Word Problem", tier=Low, mode=Static}
yields `"🔢 48 / 50 tokens"`. -/
theorem token_display_format_amended (hf localModel : Provider) (primary : Primary)
    (catalog : Catalog) (case_name : List Char) (budget_level : Tier) :
    (∀ c k0 k1 k2 rest ex,
      case_name ≠ [] →
      dictGet catalog case_name = some c →
      c.budgets.map Prod.fst = k0 :: k1 :: k2 :: rest →
      budgetGet c.budgets (tierSel budget_level k0 k1 k2) = some ex →
      (update_display hf localModel primary catalog case_name budget_level []).2.1 =
        S "🔢 " ++ (Nat.repr ex.tokens).data ++ S " / " ++
          (Nat.repr (tierSel budget_level k0 k1 k2)).data ++ S " tokens") ∧
    (∀ custom rt tok fa,
      pyStrip custom ≠ [] →
      generate_dynamic_response hf localModel primary catalog (pyStrip custom)
        budget_level (S "Custom") = .ok (rt, tok, fa) →
      (update_display hf localModel primary catalog case_name budget_level custom).2.1 =
        S "🔢 " ++ tok.str ++ S " / " ++
          (Nat.repr (BUDGET_MAPPING budget_level)).data ++ S " tokens") ∧
    (update_display (fun _ _ => .error []) (fun _ _ => .error []) none CASE_STUDIES
      (S "Math Word Problem") Tier.Low []).2.1 = S "🔢 48 / 50 tokens" := by
  refine ⟨?_, ?_, by decide⟩
  · intro c k0 k1 k2 rest ex hname hc hk hex
    rw [update_display_static hf localModel primary catalog case_name budget_level
      c k0 k1 k2 rest ex hname hc hk hex]
  · intro custom rt tok fa hcust hgen
    rw [update_display_custom hf localModel primary catalog case_name budget_level
      custom rt tok fa hcust hgen]

theorem token_display_format_amended_witness :
    (update_display (fun _ _ => .error []) (fun _ _ => .error []) none CASE_STUDIES
      (S "Capital City Finder") Tier.Medium []).2.1 = S "🔢 55 / 100 tokens" ∧
    (update_display (fun _ _ => .ok (S "T")) (fun _ _ => .error [])
      (some fun _ => 7) CASE_STUDIES (S "Math Word Problem") Tier.Low
      (S "my prompt")).2.1 = S "🔢 7 / 50 tokens" := by
  constructor
  · have h := (token_display_format_amended (fun _ _ => .error [])
        (fun _ _ => .error []) none CASE_STUDIES (S "Capital City Finder")
        Tier.Medium).1
      (CASE_STUDIES.get ⟨1, by decide⟩).2 60 100 150 []
      ((CASE_STUDIES.get ⟨1, by decide⟩).2.budgets.get ⟨1, by decide⟩).2
      (by decide) (by decide) (by decide) (by decide)
    exact h.trans (by decide)
  · have h := (token_display_format_amended (fun _ _ => .ok (S "T"))
        (fun _ _ => .error []) (some fun _ => 7) CASE_STUDIES
        (S "Math Word Problem") Tier.Low).2.1
      (S "my prompt") (S "T") (.int 7) (S "T") (by decide) (by decide)
    exact h.trans (by decide)

/-- C5 counterexample: the estimation fallback is `len(text.split()) * 1.3`
with no rounding — on a three-word text it returns the float
`3 * 1.3 = 3.9…`, which is not a (non-negative) integer and not
`round(word_count * 1.3) = 4`. -/
theorem count_tokens_integer_refuted :
    count_tokens none (S "a b c") = .float ((3 : ℚ) * (13 / 10)) ∧
    ∀ n : ℕ, (3 : ℚ) * (13 / 10) ≠ (n : ℚ) := by
  constructor
  · show PyNum.float (((splitWs (S "a b c")).length : ℚ) * (13 / 10)) = _
    rw [show (splitWs (S "a b c")).length = 3 from by decide]
    exact congrArg PyNum.float (by norm_num)
  · intro n h
    rw [show (3 : ℚ) * (13 / 10) = 39 / 10 from by norm_num,
        div_eq_iff (by norm_num : (10 : ℚ) ≠ 0)] at h
    have h' : (39 : ℕ) = n * 10 := by exact_mod_cast h
    omega

/-- C5 amended: `count_tokens` never fails (it is a total function); it is
non-negative for every input and every tokenizer state; with the primary
tokenizer unavailable it returns the fallback `word_count * 1.3` — a
float, not rounded — which is `0` on the empty string and monotonically
non-decreasing in the word count. -/
theorem count_tokens_estimation_amended (primary : Primary) (t t1 t2 : List Char)
    (h : (splitWs t1).length ≤ (splitWs t2).length) :
    0 ≤ (count_tokens primary t).toQ ∧
    count_tokens none (S "") = .float 0 ∧
    count_tokens none t = .float (((splitWs t).length : ℚ) * (13 / 10)) ∧
    (count_tokens none t1).toQ ≤ (count_tokens none t2).toQ := by
  refine ⟨?_, ?_, rfl, ?_⟩
  · cases primary with
    | some enc =>
      show (0 : ℚ) ≤ ((enc t : ℕ) : ℚ)
      exact Nat.cast_nonneg _
    | none =>
      show (0 : ℚ) ≤ ((splitWs t).length : ℚ) * (13 / 10)
      positivity
  · show PyNum.float (((splitWs (S "")).length : ℚ) * (13 / 10)) = PyNum.float 0
    rw [show (splitWs (S "")).length = 0 from by decide]
    exact congrArg PyNum.float (by norm_num)
  · show ((splitWs t1).length : ℚ) * (13 / 10) ≤ ((splitWs t2).length : ℚ) * (13 / 10)
    have hc : ((splitWs t1).length : ℚ) ≤ ((splitWs t2).length : ℚ) := by
      exact_mod_cast h
    exact mul_le_mul_of_nonneg_right hc (by norm_num)

theorem count_tokens_estimation_amended_witness :
    (splitWs (S "one")).length ≤ (splitWs (S "one two")).length ∧
    (0 ≤ (count_tokens none (S "hello world")).toQ ∧
     count_tokens none (S "") = .float 0 ∧
     count_tokens none (S "hello world") =
       .float (((splitWs (S "hello world")).length : ℚ) * (13 / 10)) ∧
     (count_tokens none (S "one")).toQ ≤ (count_tokens none (S "one two")).toQ) :=
  ⟨by decide, count_tokens_estimation_amended none (S "hello world") (S "one")
    (S "one two") (by decide)⟩

/-- C6 counterexample: the pipeline has no truncation override — the
provider wrappers surface no completion status, and on a response that was
cut off mid-sentence with no `"Final Answer:"` line,
`generate_dynamic_response` returns the extractor's last-line heuristic
(here the dangling fragment `"First, compute the"`), not a fixed
"incomplete" marker. -/
theorem truncation_override_refuted :
    (generate_dynamic_response
      (fun _ _ => .ok (S "Let me work through this step by step.\nFirst, compute the"))
      (fun _ _ => .error []) none CASE_STUDIES (S "p") Tier.Low
      (S "Custom")).map (fun r => r.2.2) = .ok (S "First, compute the") ∧
    extract_final_answer (S "Let me work through this step by step.\nFirst, compute the") =
      S "First, compute the" := by decide

/-- C6 amended: whenever a generation candidate returns usable text, the
answer component of `generate_dynamic_response` is always
`extract_final_answer` of that text — there is no completion-status signal
and no override of the extracted answer. -/
theorem generation_answer_always_extractor (t e : List Char)
    (localModel : Provider) (primary : Primary) (catalog : Catalog)
    (prompt : List Char) (budget_level : Tier) (case_name : List Char) :
    generate_dynamic_response (fun _ _ => .ok t) localModel primary catalog
      prompt budget_level case_name =
      .ok (t, count_tokens primary t, extract_final_answer t) ∧
    generate_dynamic_response (fun _ _ => .error e) (fun _ _ => .ok t) primary
      catalog prompt budget_level case_name =
      .ok (t, count_tokens primary t, extract_final_answer t) :=
  ⟨rfl, rfl⟩


/-- C7: streaming resolution: `simulate_typing "a b c"` yields exactly
`"a"`, `"a b"`, `"a b c"` in order and terminates (it is a finite list);
for every resolved text the yielded sequence is strictly growing, each
yield a prefix of the next; and the animated variant re-slices one
completed resolution — its yields are exactly `simulate_typing` of the
single resolved response text, with no further provider calls. -/
theorem streaming_prefixes :
    simulate_typing (S "a b c") = [S "a", S "a b", S "a b c"] ∧
    (∀ text, List.Chain' (fun a b => a <+: b ∧ a.length < b.length)
      (simulate_typing text)) ∧
    (∀ (t : List Char) (localModel : Provider) (primary : Primary)
      (catalog : Catalog) (case_name : List Char) (budget_level : Tier),
      animate_reasoning (fun _ _ => .ok t) localModel primary catalog case_name
        budget_level (S "Q") = simulate_typing t) :=
  ⟨by decide, simulate_typing_chain, fun t localModel primary catalog n bl => rfl⟩

/-- Strict ascent of a numeric key list, as an executable check. -/
def strictAscending : List ℕ → Bool
  | [] => true
  | [_] => true
  | a :: b :: t => decide (a < b) && strictAscending (b :: t)

theorem strictAscending_iff_chain' :
    ∀ l : List ℕ, strictAscending l = true ↔ List.Chain' (fun a b => a < b) l
  | [] => by simp [strictAscending]
  | [_] => by simp [strictAscending]
  | a :: b :: t => by
    rw [List.chain'_cons]
    simp only [strictAscending, Bool.and_eq_true, decide_eq_true_eq]
    exact and_congr Iff.rfl (strictAscending_iff_chain' (b :: t))

/-- C8: every case in `CASE_STUDIES` defines exactly three budget entries
and their numeric keys are strictly ascending, so the positional
Low/Medium/High mapping binds each tier label to the intended example. -/
theorem catalog_budget_invariant :
    ∀ p ∈ CASE_STUDIES, p.2.budgets.length = 3 ∧
      List.Chain' (fun a b => a < b) (p.2.budgets.map Prod.fst) := by
  intro p hp
  have hb : p.2.budgets.length = 3 ∧ strictAscending (p.2.budgets.map Prod.fst) = true := by
    revert p hp
    decide
  exact ⟨hb.1, (strictAscending_iff_chain' _).mp hb.2⟩

theorem catalog_budget_invariant_witness :
    (CASE_STUDIES.head (by decide)).2.budgets.length = 3 ∧
    List.Chain' (fun a b => a < b)
      ((CASE_STUDIES.head (by decide)).2.budgets.map Prod.fst) :=
  catalog_budget_invariant _ (List.head_mem _)

/-- C9: when live-mode resolution falls back to the static canned example,
the returned trace is not the example's response verbatim but that text
prefixed with the literal `"[STATIC FALLBACK] "` marker, and
`generate_live_response` detects the provenance downstream by substring
search on the marker, rendering the `"(Static)"`-suffixed token display. -/
theorem fallback_marker_in_band (case_name : List Char) (budget_level : Tier)
    (c : Case) (k0 k1 k2 : ℕ) (rest : List ℕ) (ex : Example)
    (hname : case_name ≠ [])
    (hc : dictGet CASE_STUDIES case_name = some c)
    (hk : c.budgets.map Prod.fst = k0 :: k1 :: k2 :: rest)
    (hex : budgetGet c.budgets (tierSel budget_level k0 k1 k2) = some ex) :
    get_static_fallback CASE_STUDIES case_name budget_level =
      .ok (S "[STATIC FALLBACK] " ++ ex.response, .int ex.tokens, ex.answer) ∧
    S "[STATIC FALLBACK] " ++ ex.response ≠ ex.response ∧
    ∀ e1 e2 primary,
      (generate_live_response (fun _ _ => .error e1) (fun _ _ => .error e2)
        primary CASE_STUDIES case_name budget_level []).2.1 =
        S "🔢 " ++ (Nat.repr ex.tokens).data ++ S " / " ++
          (Nat.repr (BUDGET_MAPPING budget_level)).data ++ S " tokens (Static)" := by
  refine ⟨get_static_fallback_found CASE_STUDIES case_name budget_level c k0 k1 k2
    rest ex hc hk hex, marker_append_ne ex.response, ?_⟩
  intro e1 e2 primary
  unfold generate_live_response
  rw [if_neg (fun h : pyStrip [] ≠ [] => h rfl), if_pos hname, hc]
  dsimp only
  rw [gen_failing_eq_fallback,
      get_static_fallback_found CASE_STUDIES case_name budget_level c k0 k1 k2
        rest ex hc hk hex]
  dsimp only
  rw [if_pos ?_]
  · rfl
  · apply pyContains_of_isPrefixOf
    · simp [S]
    · exact List.isPrefixOf_iff_prefix.mpr
        ((by decide : S "[STATIC FALLBACK]" <+: S "[STATIC FALLBACK] ").trans
          (List.prefix_append _ _))

theorem fallback_marker_in_band_witness :
    get_static_fallback CASE_STUDIES (S "Math Word Problem") Tier.Low =
      .ok (S "[STATIC FALLBACK] Weng earns $12/hour, which is $12/60 minutes = $0.2/minute.\nFor 50 minutes, she earned 50 * $0.2 = $10.",
           .int 48, S "$10") ∧
    (generate_live_response (fun _ _ => .error []) (fun _ _ => .error []) none
      CASE_STUDIES (S "Math Word Problem") Tier.Low []).2.1 =
      S "🔢 48 / 50 tokens (Static)" := by
  have h := fallback_marker_in_band (S "Math Word Problem") Tier.Low
    (CASE_STUDIES.head (by decide)).2 50 110 200 []
    ((CASE_STUDIES.head (by decide)).2.budgets.head (by decide)).2
    (by decide) (by decide) (by decide) (by decide)
  exact ⟨h.1.trans (by decide), (h.2.2 [] [] none).trans (by decide)⟩

/-- C10: on an empty or whitespace-only response text `simulate_typing`
yields nothing at all; in general the k-th yield is the first k
whitespace-split words rejoined with single spaces, so whitespace runs
collapse and the final yield need not equal the original text
character-for-character (e.g. `"a  b"` streams as `"a"`, `"a b"`). -/
theorem streaming_whitespace_collapse :
    (∀ text, (∀ c ∈ text, isPySpace c = true) → simulate_typing text = []) ∧
    (∀ text, simulate_typing text =
      (List.range (splitWs text).length).map
        (fun k => joinWords ((splitWs text).take (k + 1)))) ∧
    (simulate_typing (S "a  b") = [S "a", S "a b"] ∧ S "a b" ≠ S "a  b") :=
  ⟨fun text h => by
      show simulateAux (splitWs text) [] = []
      rw [splitWs_all_space text h]
      rfl,
   simulate_typing_eq, by decide⟩

theorem streaming_whitespace_collapse_witness :
    simulate_typing (S "") = [] ∧ simulate_typing (S "  ") = [] ∧
    simulate_typing (S " \t\n ") = [] :=
  ⟨streaming_whitespace_collapse.1 (S "") (by decide),
   streaming_whitespace_collapse.1 (S "  ") (by decide),
   streaming_whitespace_collapse.1 (S " \t\n ") (by decide)⟩

end BudgetSim
